import Mathlib

/-
Shallow embedding of the PlayMusic repository (GSmateus07/PlayMusic).

Sources embedded:
  lib/playlist.ts          — the Track interface and the fixed 6-track playlist.
  components/Player.tsx    — the playback controller: React state hooks become the
                             fields of PState; each handler becomes a pure function
                             from the old state (plus the parameters the handler
                             reads from the event or from the audio element) to the
                             new state, together with the list of calls it issues to
                             the media engine (the native audio element).

JavaScript numbers are modelled as exact rationals, with a separate constructor
for NaN where the source can observe it (isNaN, truthiness of audio.duration).
The asynchronous audio.play() promise is modelled by a flag saying whether a
play call was issued whose settlement is still pending; the settlement handler
(the then and catch callbacks, identical in togglePlayPause and loadTrack) is
the function applyPlaySettle. A thrown JavaScript exception inside a handler is
modelled by the threw flag of CmdResult.
-/

namespace PlayMusic

/-- Track, from lib/playlist.ts: title, subtitle, audio URI, cover URI. -/
structure Track where
  title : String
  subtitle : String
  audioSrc : String
  coverSrc : String
deriving DecidableEq, Repr

/-- The fixed playlist of lib/playlist.ts, all six entries verbatim. -/
def playlist : List Track :=
  [ { title := "Barulho do Foguete", subtitle := "Zé Neto e Cristiano",
      audioSrc := "/assets/audio/BarulhodoFoguete.mp3",
      coverSrc := "/assets/imagens/BarulhodoFoguete.png" },
    { title := "Oi Balde", subtitle := "Zé Neto e Cristiano",
      audioSrc := "/assets/audio/OiBalde.mp3",
      coverSrc := "/assets/imagens/OiBalde.png" },
    { title := "Ilusão",
      subtitle := "MC Hariel, MC Ryan, DJ Alok, MC Davi, MC Salvador da Rima e Djay W",
      audioSrc := "/assets/audio/Ilusao.mp3",
      coverSrc := "/assets/imagens/Ilusao.png" },
    { title := "Paraquedas", subtitle := "Wesley Safadão",
      audioSrc := "/assets/audio/Paraquedas.mp3",
      coverSrc := "/assets/imagens/Paraquedas.png" },
    { title := "Pisando na Lua", subtitle := "Hungria",
      audioSrc := "/assets/audio/PisandonaLua.mp3",
      coverSrc := "/assets/imagens/PisandonaLua.png" },
    { title := "Seis cordas / Baião de dois / Cavalo Lampião", subtitle := "Wesley Safadão",
      audioSrc := "/assets/audio/6cordas.mp3",
      coverSrc := "/assets/imagens/6cordas.png" } ]

/-- A JavaScript number that the player code can observe as NaN. -/
inductive JSNum where
  | nan : JSNum
  | num : ℚ → JSNum
deriving DecidableEq, Repr

/-- JavaScript truthiness of a number: false exactly for 0 and NaN. -/
def jsTruthy : JSNum → Bool
  | JSNum.nan => false
  | JSNum.num q => if q = 0 then false else true

/-- JavaScript Math.trunc on a rational (floor towards zero). -/
def jsTrunc (q : ℚ) : ℤ := if 0 ≤ q then ⌊q⌋ else ⌈q⌉

/-- The JavaScript remainder operator on rationals: a - b * trunc (a / b). -/
def jsFmod (a b : ℚ) : ℚ := a - b * jsTrunc (a / b)

/-- Mathematical mod on rationals (used by the specification text): a - b * floor (a / b). -/
def ratMod (a b : ℚ) : ℚ := a - b * ⌊a / b⌋

/-- The React state hooks of Player.tsx that the claims are about:
currentTrackIndex, isPlaying, currentTime, duration, volume. The index is an
integer because loadTrack stores its argument without normalization. There is
no seekPreviewTime and no loadGeneration field: the source declares neither. -/
structure PState where
  currentTrackIndex : ℤ
  isPlaying : Bool
  currentTime : ℚ
  duration : JSNum
  volume : ℚ
deriving DecidableEq, Repr

/-- Initial hook values: useState(0), useState(false), useState(0), useState(0), useState(1). -/
def initialState : PState :=
  { currentTrackIndex := 0, isPlaying := false, currentTime := 0,
    duration := JSNum.num 0, volume := 1 }

/-- A mutating call issued to the media engine (the native audio element).
seekTo t is the assignment audio.currentTime = t. -/
inductive EngineCall where
  | setSrc : String → EngineCall
  | seekTo : ℚ → EngineCall
  | load : EngineCall
  | play : EngineCall
  | pause : EngineCall
  | setVolume : ℚ → EngineCall
deriving DecidableEq, Repr

/-- Result of running one command handler: the new React state, the engine
calls issued in order, whether an audio.play() promise is now pending
(settled later through applyPlaySettle), and whether the handler threw. -/
structure CmdResult where
  state : PState
  calls : List EngineCall
  playIssued : Bool
  threw : Bool
deriving DecidableEq, Repr

/-- JavaScript array lookup playlist[i]: undefined off the ends. -/
def trackAt (i : ℤ) : Option Track :=
  if 0 ≤ i then playlist[i.toNat]? else none

/-- formatTime of Player.tsx: NaN or negative input gives "0:00", otherwise
minutes = Math.floor(time / 60), seconds = Math.floor(time % 60), and seconds
below 10 get a leading zero. -/
def formatTime (time : JSNum) : String :=
  match time with
  | JSNum.nan => "0:00"
  | JSNum.num t =>
      if t < 0 then "0:00"
      else
        toString ⌊t / 60⌋ ++ ":" ++
          ((if ⌊jsFmod t 60⌋ < 10 then "0" else "") ++ toString ⌊jsFmod t 60⌋)

/-- Claim wording for formatTime, written from the claim text: floor(t/60),
a colon, and floor(t mod 60) zero-padded to two digits, with "0:00" for NaN
or negative input. -/
def formatTimeSpec (time : JSNum) : String :=
  match time with
  | JSNum.nan => "0:00"
  | JSNum.num t =>
      if t < 0 then "0:00"
      else
        toString ⌊t / 60⌋ ++ ":" ++
          ((if ⌊ratMod t 60⌋ < 10 then "0" else "") ++ toString ⌊ratMod t 60⌋)

/-- updateSliderColor of Player.tsx: returns with no effect when the slider is
absent or max is 0; otherwise computes percent = value / max * 100 and produces
the background style string. The produced style is the only effect. -/
def updateSliderColor (sliderPresent : Bool) (value mx : ℚ) : Option String :=
  if sliderPresent = false ∨ mx = 0 then none
  else
    some ("linear-gradient(to right, #1ed760 0%, #1ed760 " ++ toString (value / mx * 100) ++
      "%, #535353 " ++ toString (value / mx * 100) ++ "%, #535353 100%)")

/-- handleSeek (the onChange drag handler): parses the slider value, stores it
in currentTime, and recolors the progress slider. It issues no engine call. -/
def handleSeek (s : PState) (newTime : ℚ) : PState × List EngineCall :=
  ({ s with currentTime := newTime }, [])

/-- handleSeekFinished (onMouseUp / onTouchEnd): returns if the audio element
is absent, otherwise writes the engine position once: audio.currentTime = newTime. -/
def handleSeekFinished (s : PState) (newTime : ℚ) (audioPresent : Bool) :
    PState × List EngineCall :=
  if audioPresent then (s, [EngineCall.seekTo newTime]) else (s, [])

/-- The then and catch callbacks attached to the audio.play() promise, shared
verbatim by togglePlayPause and loadTrack: resolution runs setIsPlaying(true),
rejection runs setIsPlaying(false). The source attaches no generation tag, so
the same function applies no matter which load issued the play. -/
def applyPlaySettle (resolved : Bool) (s : PState) : PState :=
  if resolved then { s with isPlaying := true } else { s with isPlaying := false }

/-- togglePlayPause of Player.tsx. With no audio element it is a no-op; when
playing it pauses synchronously; when paused it calls audio.play() and, when
the returned promise is defined, leaves the state change to the settlement. -/
def togglePlayPause (s : PState) (audioPresent promiseDefined : Bool) : CmdResult :=
  if audioPresent = false then { state := s, calls := [], playIssued := false, threw := false }
  else if s.isPlaying then
    { state := { s with isPlaying := false }, calls := [EngineCall.pause],
      playIssued := false, threw := false }
  else if promiseDefined then
    { state := s, calls := [EngineCall.play], playIssued := true, threw := false }
  else
    { state := s, calls := [EngineCall.play], playIssued := false, threw := false }

/-- loadTrack of Player.tsx. It stores the index as given (no normalization),
resets time and duration, then, with an audio element present, reads
playlist[index].audioSrc — a TypeError when the index is out of range — sets
the source, rewinds, loads, and either attempts play (autoPlay) or records the
paused state. In the source the autoPlay parameter defaults to the current
isPlaying; every call site in the repository passes it explicitly. -/
def loadTrack (s : PState) (index : ℤ) (autoPlay audioPresent promiseDefined : Bool) :
    CmdResult :=
  let s1 : PState := { s with currentTrackIndex := index, currentTime := 0,
                              duration := JSNum.num 0 }
  if audioPresent = false then { state := s1, calls := [], playIssued := false, threw := false }
  else
    match trackAt index with
    | none =>
        { state := s1, calls := [], playIssued := false, threw := true }
    | some tr =>
        let calls := [EngineCall.setSrc tr.audioSrc, EngineCall.seekTo 0, EngineCall.load]
        if autoPlay then
          if promiseDefined then
            { state := s1, calls := calls ++ [EngineCall.play], playIssued := true,
              threw := false }
          else
            { state := { s1 with isPlaying := true }, calls := calls ++ [EngineCall.play],
              playIssued := false, threw := false }
        else
          { state := { s1 with isPlaying := false }, calls := calls,
            playIssued := false, threw := false }

/-- The successor index of handleNext: (currentTrackIndex + 1) % playlist.length,
with the JavaScript truncated remainder. -/
def nextIndex (i : ℤ) : ℤ := (i + 1).tmod (playlist.length : ℤ)

/-- The predecessor index of handlePrev:
(currentTrackIndex - 1 + playlist.length) % playlist.length. -/
def prevIndex (i : ℤ) : ℤ := (i - 1 + (playlist.length : ℤ)).tmod (playlist.length : ℤ)

/-- handleNext of Player.tsx: loadTrack of the wrapped successor, autoPlay true. -/
def handleNext (s : PState) (audioPresent promiseDefined : Bool) : CmdResult :=
  loadTrack s (nextIndex s.currentTrackIndex) true audioPresent promiseDefined

/-- handlePrev of Player.tsx: loadTrack of the wrapped predecessor, autoPlay true. -/
def handlePrev (s : PState) (audioPresent promiseDefined : Bool) : CmdResult :=
  loadTrack s (prevIndex s.currentTrackIndex) true audioPresent promiseDefined

/-- handleVolumeChange of Player.tsx: with the audio element absent it returns
before any state change; otherwise it writes the parsed value to the engine
volume and stores the same value in state. No clamping appears anywhere. -/
def handleVolumeChange (s : PState) (newVolume : ℚ) (audioPresent : Bool) :
    PState × List EngineCall :=
  if audioPresent then ({ s with volume := newVolume }, [EngineCall.setVolume newVolume])
  else (s, [])

/-- The timeupdate listener: overwrites currentTime with the engine time when
it differs from the stored time and audio.duration is truthy; otherwise no
state change. The slider recoloring it also performs is styling only. -/
def onTimeUpdate (s : PState) (engineTime : ℚ) (engineDuration : JSNum) : PState :=
  if engineTime ≠ s.currentTime ∧ jsTruthy engineDuration = true then
    { s with currentTime := engineTime }
  else s

/-- The loadedmetadata listener: unconditionally stores audio.duration into the
duration state. No generation or track check guards it. -/
def onLoadedMetadata (s : PState) (engineDuration : JSNum) : PState :=
  { s with duration := engineDuration }

/-- The ended listener: its body is exactly a call to handleNext. -/
def onEnded (s : PState) (audioPresent promiseDefined : Bool) : CmdResult :=
  handleNext s audioPresent promiseDefined

/-- Helper: loadTrack always stores the given index, in every branch. -/
lemma loadTrack_idx (s : PState) (i : ℤ) (ap a p : Bool) :
    (loadTrack s i ap a p).state.currentTrackIndex = i := by
  unfold loadTrack
  cases a
  · simp
  · cases htr : trackAt i <;> cases ap <;> cases p <;> simp [htr]

/-- Helper: for an in-range index the truncated remainder of handleNext agrees
with the mathematical remainder. -/
lemma nextIndex_eq (i : ℤ) (h0 : 0 ≤ i) (h6 : i < 6) : nextIndex i = (i + 1) % 6 := by
  interval_cases i <;> decide

/-- Helper: for an in-range index the predecessor computation agrees with
adding 5 modulo 6. -/
lemma prevIndex_eq (i : ℤ) (h0 : 0 ≤ i) (h6 : i < 6) : prevIndex i = (i + 5) % 6 := by
  interval_cases i <;> decide

/-- Helper: in-range indices hit an actual playlist entry. -/
lemma trackAt_isSome (j : ℤ) (h0 : 0 ≤ j) (h6 : j < 6) : (trackAt j).isSome = true := by
  interval_cases j <;> decide

/-- Helper: a loadTrack with autoplay and an audio element issues the play call. -/
lemma loadTrack_play_mem (s : PState) (i : ℤ) (p : Bool)
    (h : (trackAt i).isSome = true) :
    EngineCall.play ∈ (loadTrack s i true true p).calls := by
  obtain ⟨tr, htr⟩ := Option.isSome_iff_exists.mp h
  unfold loadTrack
  cases p <;> simp [htr]

/-- Helper: iterating handleNext advances the index by one modulo 6 each time. -/
lemma next_iter (n : ℕ) : ∀ s : PState, 0 ≤ s.currentTrackIndex → s.currentTrackIndex < 6 →
    ((fun t => (handleNext t true true).state)^[n] s).currentTrackIndex
      = (s.currentTrackIndex + n) % 6 := by
  induction n with
  | zero =>
      intro s h0 h6
      simp only [Function.iterate_zero, id_eq]
      push_cast
      omega
  | succ n ih =>
      intro s h0 h6
      rw [Function.iterate_succ_apply]
      have hstep : ((handleNext s true true).state).currentTrackIndex
          = (s.currentTrackIndex + 1) % 6 := by
        unfold handleNext
        rw [loadTrack_idx]
        exact nextIndex_eq _ h0 h6
      have hb0 : 0 ≤ ((handleNext s true true).state).currentTrackIndex := by
        rw [hstep]; omega
      have hb6 : ((handleNext s true true).state).currentTrackIndex < 6 := by
        rw [hstep]; omega
      rw [ih _ hb0 hb6, hstep]
      push_cast
      omega

/-- Helper: iterating handlePrev retreats the index by one modulo 6 each time. -/
lemma prev_iter (n : ℕ) : ∀ s : PState, 0 ≤ s.currentTrackIndex → s.currentTrackIndex < 6 →
    ((fun t => (handlePrev t true true).state)^[n] s).currentTrackIndex
      = (s.currentTrackIndex - n) % 6 := by
  induction n with
  | zero =>
      intro s h0 h6
      simp only [Function.iterate_zero, id_eq]
      push_cast
      omega
  | succ n ih =>
      intro s h0 h6
      rw [Function.iterate_succ_apply]
      have hstep : ((handlePrev s true true).state).currentTrackIndex
          = (s.currentTrackIndex + 5) % 6 := by
        unfold handlePrev
        rw [loadTrack_idx]
        exact prevIndex_eq _ h0 h6
      have hb0 : 0 ≤ ((handlePrev s true true).state).currentTrackIndex := by
        rw [hstep]; omega
      have hb6 : ((handlePrev s true true).state).currentTrackIndex < 6 := by
        rw [hstep]; omega
      rw [ih _ hb0 hb6, hstep]
      push_cast
      omega

/-- Helper: the playlist has six entries. -/
lemma playlist_len : (playlist.length : ℤ) = 6 := rfl

/-- C1, counterexample. Scenario of two rapid loads: loadTrack 1 with autoplay,
then loadTrack 2 with autoplay before the first play settles. The late
resolution of the first play still runs its then-callback applyPlaySettle,
which flips isPlaying from false to true on the state that belongs to track 2:
the stale completion mutates controller state, so the claimed
generation-based discard does not hold in the code. -/
theorem c1_counterexample :
    loadTrack initialState 1 true true true =
      { state := { currentTrackIndex := 1, isPlaying := false, currentTime := 0,
                   duration := JSNum.num 0, volume := 1 },
        calls := [EngineCall.setSrc "/assets/audio/OiBalde.mp3", EngineCall.seekTo 0,
                  EngineCall.load, EngineCall.play],
        playIssued := true, threw := false }
  ∧ loadTrack { currentTrackIndex := 1, isPlaying := false, currentTime := 0,
                duration := JSNum.num 0, volume := 1 } 2 true true true =
      { state := { currentTrackIndex := 2, isPlaying := false, currentTime := 0,
                   duration := JSNum.num 0, volume := 1 },
        calls := [EngineCall.setSrc "/assets/audio/Ilusao.mp3", EngineCall.seekTo 0,
                  EngineCall.load, EngineCall.play],
        playIssued := true, threw := false }
  ∧ applyPlaySettle true
      { currentTrackIndex := 2, isPlaying := false, currentTime := 0,
        duration := JSNum.num 0, volume := 1 } ≠
      { currentTrackIndex := 2, isPlaying := false, currentTime := 0,
        duration := JSNum.num 0, volume := 1 }
  ∧ (applyPlaySettle true
      { currentTrackIndex := 2, isPlaying := false, currentTime := 0,
        duration := JSNum.num 0, volume := 1 }).isPlaying = true := by
  decide

/-- C1, amended: the source maintains no loadGeneration. Every play-promise
settlement, from whichever load issued it, overwrites isPlaying (true on
resolution, false on rejection), and every loadedmetadata event overwrites
duration unconditionally; stale completions are applied, never discarded. -/
theorem c1_amended (s : PState) (ok : Bool) (d : JSNum) :
    applyPlaySettle ok s = { s with isPlaying := ok }
  ∧ onLoadedMetadata s d = { s with duration := d } := by
  refine ⟨?_, rfl⟩
  cases ok <;> simp [applyPlaySettle]

/-- C2, counterexample. handleVolumeChange applied to 3/2 stores 3/2 in state
and writes 3/2 to the engine: no clamping to the unit interval happens, so
setVolume(1.5) does not yield volume 1.0. -/
theorem c2_counterexample :
    (handleVolumeChange initialState (3 / 2) true).1.volume = 3 / 2
  ∧ (handleVolumeChange initialState (3 / 2) true).2 = [EngineCall.setVolume (3 / 2)]
  ∧ ((3 : ℚ) / 2 ≠ 1) := by
  refine ⟨by simp [handleVolumeChange], by simp [handleVolumeChange], by norm_num⟩

/-- C2, amended: with the audio element present, handleVolumeChange stores the
input value unchanged and passes the same unclamped value to the engine; with
the audio element absent it changes nothing. -/
theorem c2_amended (s : PState) (v : ℚ) :
    (handleVolumeChange s v true).1 = { s with volume := v }
  ∧ (handleVolumeChange s v true).2 = [EngineCall.setVolume v]
  ∧ handleVolumeChange s v false = (s, []) := by
  refine ⟨?_, ?_, ?_⟩ <;> simp [handleVolumeChange]

/-- C3, counterexample. loadTrack performs no modulo normalization: at index 6
(and at index -1) the playlist lookup misses and the handler throws reading
audioSrc of undefined, and the out-of-range index 6 is stored in state as is. -/
theorem c3_counterexample :
    (loadTrack initialState 6 true true true).threw = true
  ∧ trackAt 6 = none
  ∧ (loadTrack initialState (-1) true true true).threw = true
  ∧ (loadTrack initialState 6 true true true).state.currentTrackIndex = 6 := by
  decide

/-- C3, amended: loadTrack uses the index exactly as given; the modulo
normalization lives in its callers handleNext and handlePrev, so from any
in-range state those callers always pass an in-range index, never hit the
error branch, and keep the index in range. -/
theorem c3_amended (s : PState) (i : ℤ) (a p : Bool)
    (h0 : 0 ≤ s.currentTrackIndex) (h6 : s.currentTrackIndex < 6) :
    (loadTrack s i true a p).state.currentTrackIndex = i
  ∧ (handleNext s a p).threw = false
  ∧ (handlePrev s a p).threw = false
  ∧ (0 ≤ (handleNext s a p).state.currentTrackIndex
      ∧ (handleNext s a p).state.currentTrackIndex < 6)
  ∧ (0 ≤ (handlePrev s a p).state.currentTrackIndex
      ∧ (handlePrev s a p).state.currentTrackIndex < 6) := by
  have hn : nextIndex s.currentTrackIndex = (s.currentTrackIndex + 1) % 6 :=
    nextIndex_eq _ h0 h6
  have hp : prevIndex s.currentTrackIndex = (s.currentTrackIndex + 5) % 6 :=
    prevIndex_eq _ h0 h6
  have hnb : 0 ≤ nextIndex s.currentTrackIndex ∧ nextIndex s.currentTrackIndex < 6 := by
    rw [hn]; omega
  have hpb : 0 ≤ prevIndex s.currentTrackIndex ∧ prevIndex s.currentTrackIndex < 6 := by
    rw [hp]; omega
  have hnthrew : (handleNext s a p).threw = false := by
    unfold handleNext loadTrack
    obtain ⟨tr, htr⟩ := Option.isSome_iff_exists.mp (trackAt_isSome _ hnb.1 hnb.2)
    cases a <;> cases p <;> simp [htr]
  have hpthrew : (handlePrev s a p).threw = false := by
    unfold handlePrev loadTrack
    obtain ⟨tr, htr⟩ := Option.isSome_iff_exists.mp (trackAt_isSome _ hpb.1 hpb.2)
    cases a <;> cases p <;> simp [htr]
  refine ⟨loadTrack_idx s i true a p, hnthrew, hpthrew, ?_, ?_⟩
  · unfold handleNext
    rw [loadTrack_idx]
    exact hnb
  · unfold handlePrev
    rw [loadTrack_idx]
    exact hpb

/-- C3, amended, witness at concrete inputs: index 7 is stored as given, and
handleNext from the initial state does not throw. -/
theorem c3_amended_witness :
    (loadTrack initialState 7 true true true).state.currentTrackIndex = 7
  ∧ (handleNext initialState true true).threw = false :=
  ⟨(c3_amended initialState 7 true true (by decide) (by decide)).1,
   (c3_amended initialState 7 true true (by decide) (by decide)).2.1⟩

/-- C4, counterexample. The component has no seekPreviewTime, so no drag is
ever in progress; the claim then requires every timeUpdate(time) to overwrite
currentTime. But with the engine duration still unknown (NaN or 0) a
timeUpdate(5) leaves currentTime at 0. -/
theorem c4_counterexample :
    onTimeUpdate initialState 5 JSNum.nan = initialState
  ∧ onTimeUpdate initialState 5 (JSNum.num 0) = initialState
  ∧ (5 : ℚ) ≠ initialState.currentTime := by
  decide

/-- C4, amended: the source has no seekPreviewTime and never filters drags; a
timeUpdate overwrites currentTime exactly when the event time differs from the
stored time and the engine duration is truthy (known and nonzero), and is a
no-op otherwise. -/
theorem c4_amended (s : PState) (t : ℚ) (d : JSNum) :
    (jsTruthy d = false → onTimeUpdate s t d = s)
  ∧ (t = s.currentTime → onTimeUpdate s t d = s)
  ∧ (t ≠ s.currentTime → jsTruthy d = true →
      onTimeUpdate s t d = { s with currentTime := t }) := by
  refine ⟨fun hd => ?_, fun ht => ?_, fun ht hd => ?_⟩
  · simp [onTimeUpdate, hd]
  · simp [onTimeUpdate, ht]
  · simp [onTimeUpdate, ht, hd]

/-- C4, amended, witness: with a known duration of 100 and event time 5 over a
stored time of 0, the update is applied. -/
theorem c4_amended_witness :
    onTimeUpdate initialState 5 (JSNum.num 100) = { initialState with currentTime := 5 } :=
  (c4_amended initialState 5 (JSNum.num 100)).2.2 (by decide) (by decide)

/-- C5: from any in-range index, n applications of handleNext land on
(i + n) mod length and n applications of handlePrev land on (i - n) mod length;
the wraparound cases next from 5 to 0 and prev from 0 to 5 are instances. -/
theorem c5_next_prev_iterate (s : PState) (n : ℕ)
    (h0 : 0 ≤ s.currentTrackIndex) (h6 : s.currentTrackIndex < 6) :
    ((fun t => (handleNext t true true).state)^[n] s).currentTrackIndex
      = (s.currentTrackIndex + n) % (playlist.length : ℤ)
  ∧ ((fun t => (handlePrev t true true).state)^[n] s).currentTrackIndex
      = (s.currentTrackIndex - n) % (playlist.length : ℤ) := by
  rw [playlist_len]
  exact ⟨next_iter n s h0 h6, prev_iter n s h0 h6⟩

/-- C5, witness: one handleNext from index 5 wraps to 0 and one handlePrev
from index 0 wraps to 5. -/
theorem c5_witness :
    ((fun t => (handleNext t true true).state)^[1]
      { currentTrackIndex := 5, isPlaying := false, currentTime := 0,
        duration := JSNum.num 0, volume := 1 }).currentTrackIndex = 0
  ∧ ((fun t => (handlePrev t true true).state)^[1]
      { currentTrackIndex := 0, isPlaying := false, currentTime := 0,
        duration := JSNum.num 0, volume := 1 }).currentTrackIndex = 5 :=
  ⟨((c5_next_prev_iterate
      { currentTrackIndex := 5, isPlaying := false, currentTime := 0,
        duration := JSNum.num 0, volume := 1 } 1 (by decide) (by decide)).1).trans (by decide),
   ((c5_next_prev_iterate
      { currentTrackIndex := 0, isPlaying := false, currentTime := 0,
        duration := JSNum.num 0, volume := 1 } 1 (by decide) (by decide)).2).trans (by decide)⟩

/-- C6: the drag handler handleSeek updates only the displayed currentTime and
issues no engine call at all, while handleSeekFinished with the audio element
present leaves React state alone and issues the engine position write seekTo
exactly once. -/
theorem c6_seek_preview_commit (s : PState) (t : ℚ) :
    (handleSeek s t).2 = []
  ∧ (handleSeek s t).1 = { s with currentTime := t }
  ∧ (handleSeekFinished s t true).2 = [EngineCall.seekTo t]
  ∧ (handleSeekFinished s t true).2.count (EngineCall.seekTo t) = 1
  ∧ (handleSeekFinished s t true).1 = s := by
  refine ⟨rfl, rfl, ?_, ?_, ?_⟩ <;> simp [handleSeekFinished]

/-- C7: the ended listener is literally handleNext, so an ended event loads
index (currentIndex + 1) mod length with an autoplay attempt; in particular
from index 5 it advances to 0, and with the audio element present the engine
play call is issued. -/
theorem c7_ended_is_next (s : PState) (a p : Bool)
    (h0 : 0 ≤ s.currentTrackIndex) (h6 : s.currentTrackIndex < 6) :
    onEnded s a p = handleNext s a p
  ∧ (onEnded s a p).state.currentTrackIndex
      = (s.currentTrackIndex + 1) % (playlist.length : ℤ)
  ∧ (s.currentTrackIndex = 5 → (onEnded s a p).state.currentTrackIndex = 0)
  ∧ (a = true → EngineCall.play ∈ (onEnded s a p).calls) := by
  have hidx : (onEnded s a p).state.currentTrackIndex = (s.currentTrackIndex + 1) % 6 := by
    unfold onEnded handleNext
    rw [loadTrack_idx]
    exact nextIndex_eq _ h0 h6
  have hnb : 0 ≤ nextIndex s.currentTrackIndex ∧ nextIndex s.currentTrackIndex < 6 := by
    rw [nextIndex_eq _ h0 h6]; omega
  refine ⟨rfl, ?_, fun h5 => ?_, fun ha => ?_⟩
  · rw [playlist_len]
    exact hidx
  · rw [hidx, h5]
    decide
  · subst ha
    exact loadTrack_play_mem s _ p (trackAt_isSome _ hnb.1 hnb.2)

/-- C7, witness: an ended event at index 5 advances to index 0 and issues the
engine play call. -/
theorem c7_witness :
    (onEnded { currentTrackIndex := 5, isPlaying := false, currentTime := 0,
               duration := JSNum.num 0, volume := 1 } true true).state.currentTrackIndex = 0
  ∧ EngineCall.play ∈
      (onEnded { currentTrackIndex := 5, isPlaying := false, currentTime := 0,
                 duration := JSNum.num 0, volume := 1 } true true).calls :=
  ⟨(c7_ended_is_next
      { currentTrackIndex := 5, isPlaying := false, currentTime := 0,
        duration := JSNum.num 0, volume := 1 } true true (by decide) (by decide)).2.2.1 rfl,
   (c7_ended_is_next
      { currentTrackIndex := 5, isPlaying := false, currentTime := 0,
        duration := JSNum.num 0, volume := 1 } true true (by decide) (by decide)).2.2.2 rfl⟩

/-- C8: a rejected play promise settles through the shared catch callback,
which records the paused state (isPlaying false) and nothing else; the command
handlers themselves are total — togglePlayPause never throws, and loadTrack
never throws whenever the index actually hits a playlist entry — so the
rejection is absorbed into state rather than propagated as an exception. -/
theorem c8_rejection_paused (s : PState) (a p : Bool) (i : ℤ) :
    (applyPlaySettle false s).isPlaying = false
  ∧ applyPlaySettle false s = { s with isPlaying := false }
  ∧ (togglePlayPause s a p).threw = false
  ∧ ((trackAt i).isSome = true → (loadTrack s i true a p).threw = false) := by
  refine ⟨rfl, rfl, ?_, fun h => ?_⟩
  · unfold togglePlayPause
    split_ifs <;> rfl
  · obtain ⟨tr, htr⟩ := Option.isSome_iff_exists.mp h
    unfold loadTrack
    cases a <;> cases p <;> simp [htr]

/-- C8, witness: rejection at the initial state records paused, and loadTrack
at the in-range index 0 does not throw. -/
theorem c8_witness :
    (applyPlaySettle false initialState).isPlaying = false
  ∧ (loadTrack initialState 0 true true true).threw = false :=
  ⟨(c8_rejection_paused initialState true true 0).1,
   (c8_rejection_paused initialState true true 0).2.2.2 (by decide)⟩

/-- C9: formatTime agrees everywhere with the claim formula — "0:00" for NaN
or negative input, otherwise floor of t / 60, a colon, and floor of t mod 60
zero-padded to two digits. -/
theorem c9_formatTime_spec (time : JSNum) : formatTime time = formatTimeSpec time := by
  cases time with
  | nan => rfl
  | num t =>
      simp only [formatTime, formatTimeSpec]
      by_cases h : t < 0
      · rw [if_pos h, if_pos h]
      · have h0 : (0 : ℚ) ≤ t := not_lt.mp h
        have hq : jsFmod t 60 = ratMod t 60 := by
          unfold jsFmod ratMod jsTrunc
          rw [if_pos (div_nonneg h0 (by norm_num))]
        rw [if_neg h, if_neg h, hq]

/-- C10: updateSliderColor returns with no effect when the slider is absent or
max is 0, and whenever it does produce a style the divisor was nonzero and the
slider present, so the percentage is never computed with a zero divisor. -/
theorem c10_updateSliderColor_guard (present : Bool) (value mx : ℚ) :
    (present = false → updateSliderColor present value mx = none)
  ∧ (mx = 0 → updateSliderColor present value mx = none)
  ∧ (updateSliderColor present value mx ≠ none → mx ≠ 0 ∧ present = true) := by
  unfold updateSliderColor
  refine ⟨fun hp => ?_, fun hm => ?_, fun hne => ?_⟩
  · rw [if_pos (Or.inl hp)]
  · rw [if_pos (Or.inr hm)]
  · by_cases hc : present = false ∨ mx = 0
    · rw [if_pos hc] at hne
      exact absurd rfl hne
    · push_neg at hc
      refine ⟨hc.2, ?_⟩
      cases present with
      | false => exact absurd rfl hc.1
      | true => rfl

/-- C10, witness: a zero max with the slider present, and an absent slider,
both yield no effect. -/
theorem c10_witness :
    updateSliderColor true 1 0 = none ∧ updateSliderColor false 1 2 = none :=
  ⟨(c10_updateSliderColor_guard true 1 0).2.1 rfl,
   (c10_updateSliderColor_guard false 1 2).1 rfl⟩

end PlayMusic
